import Mathlib

/-!
Shallow embedding of `pcounter-forward.go` (pcounter-forward)

The program subscribes to people-counter supplies on a source Synerex server,
keeps the events whose category pattern matches the device ID, and republishes
the reduced record on a destination server.

Conventions of the embedding

* Go globals live in the record `World`; a Go function that reads or writes
  them is a function on `World`.
* Every call that leaves the process (logging, publishing, sleeping, dialling,
  registering) is appended to `World.trace` as an `Action`, in program order.
* A nil pointer is `none`.  A nil dereference is the outcome `panicked`.
* `int64` and `int32` values are integers reduced with `wrapInt64`/`toInt32`.
* Library calls whose code is outside the repository (protobuf codec, regexp
  engine, sxutil transport) are parameters: `Env`, `Regexp`, `MustCompile`.
-/

namespace PCounterForward

/-! ## Data model -/

/-- Byte strings (`[]byte`), one number per byte. -/
abbrev Bytes := List Nat

/-- Identity of a gRPC connection returned by `sxutil.GrpcConnectServer`. -/
abbrev Conn := Nat

/-- Two's-complement reduction to the range of `int64`. -/
def wrapInt64 (x : Int) : Int := (x + 2 ^ 63) % 2 ^ 64 - 2 ^ 63

/-- The Go conversion `int32(x)` of an `int64` value. -/
def toInt32 (x : Int) : Int := (x + 2 ^ 31) % 2 ^ 32 - 2 ^ 31

/-- A compiled `*regexp.Regexp`: its source text and the partial-match
predicate computed by `MatchString`. -/
structure Regexp where
  expr : String
  MatchString : String → Bool

/-- One `pcounter.PEvent`: the category tag `Typ` and the remaining fields,
which the forwarder never inspects. -/
structure PEvent where
  Typ : String
  payload : Bytes
  deriving DecidableEq, Repr

/-- One `pcounter.PCounter` record: the device ID, the event list `Data`, and
the remaining scalar fields, which the forwarder never inspects. -/
structure PCounter where
  DeviceId : String
  info : Bytes
  Data : List PEvent
  deriving DecidableEq, Repr

/-- The message body `api.Content`. -/
structure Content where
  Entity : Bytes
  deriving DecidableEq, Repr

/-- An inbound `api.Supply`; `Cdata` is a pointer and may be nil. -/
structure Supply where
  Cdata : Option Content
  deriving DecidableEq, Repr

/-- The argument `sxutil.SupplyOpts` of `NotifySupply`. -/
structure SupplyOpts where
  Name : String
  Cdata : Content
  deriving DecidableEq, Repr

/-- The source client object; `Client` is the connection handle, nil when the
link is down. -/
structure SXServiceClient where
  Client : Option Conn
  deriving DecidableEq, Repr

/-- Which node server a status report goes to. -/
inductive Side
  | src
  | dst
  deriving DecidableEq, Repr

/-- Calls that leave the process, recorded in program order. -/
inductive Action
  | flagParse
  | goHandleSigInt
  | registerDeferFunction (name : String)
  | logPrintf (format : String) (args : List String)
  | logPrint (msg : String)
  | logFatal (msg : String)
  | mustCompile (pattern : String)
  | newNodeServInfo
  | registerNode (side : Side) (nodesrv : String) (name : String)
  | grpcConnectServer (addr : String)
  | newSXServiceClient (side : Side) (arg : String)
  | go (name : String)
  | subscribeSupply
  | reconnectClient
  | sleep (seconds : Nat)
  | notifySupply (smo : SupplyOpts) (ok : Bool)
  | setNodeStatus (side : Side) (status : Int) (arg : String)
  deriving DecidableEq, Repr

/-- The package-level variables, the state of the source client object, and
the trace of outside calls. -/
structure World where
  ctexp : Option Regexp
  flexp : Option Regexp
  dwexp : Option Regexp
  msgCount : Int
  sxSrcServerAddress : String
  sxDstServerAddress : String
  client : SXServiceClient
  trace : List Action

/-- The package state after `init`: all pointers nil, `msgCount = 0`. -/
def World.init : World where
  ctexp := none
  flexp := none
  dwexp := none
  msgCount := 0
  sxSrcServerAddress := ""
  sxDstServerAddress := ""
  client := { Client := none }
  trace := []

/-- Append one action to the trace. -/
def World.emit (w : World) (a : Action) : World :=
  { w with trace := w.trace ++ [a] }

/-- How a function call ends: it returns, or it panics (nil dereference).
Either way the world it leaves behind is recorded. -/
inductive Outcome
  | returned (w : World)
  | panicked (w : World)

/-- The world left behind by a call. -/
def Outcome.world : Outcome → World
  | .returned w => w
  | .panicked w => w

/-- Whether the call returned normally. -/
def Outcome.isReturned : Outcome → Bool
  | .returned _ => true
  | .panicked _ => false

/-- The library calls made by the callback: `proto.Unmarshal` (`none` is a
decoding error), `proto.Marshal`, and `sxDstClient.NotifySupply` (`some e` is
the error `e`, `none` is a nil error). -/
structure Env where
  Unmarshal : Bytes → Option PCounter
  Marshal : PCounter → Bytes
  NotifySupply : SupplyOpts → Option String

/-! ## The command-line flags and `prepFilters` -/

/-- The command-line flags with their defaults. -/
structure Flags where
  srcSrv : String := "127.0.0.1:9990"
  dstSrv : String := "127.0.0.1:9990"
  counterFilter : String := ""
  fillFilter : String := ""
  dwellTime : String := ""
  localSrv : String := ""
  deriving DecidableEq, Repr

/-- Embedding of `prepFilters`: each non-empty pattern string is compiled and
stored; an empty one leaves the pointer as it was.  `MustCompile` returns
`none` where `regexp.MustCompile` panics. -/
def prepFilters (MustCompile : String → Option Regexp) (f : Flags) (w : World) : Outcome :=
  let step (pat : String) (set : World → Regexp → World) (w : World) : Outcome :=
    if pat ≠ "" then
      match MustCompile pat with
      | none => .panicked (w.emit (.mustCompile pat))
      | some re => .returned (set (w.emit (.mustCompile pat)) re)
    else .returned w
  match step f.counterFilter (fun w re => { w with ctexp := some re }) w with
  | .panicked w1 => .panicked w1
  | .returned w1 =>
    match step f.fillFilter (fun w re => { w with flexp := some re }) w1 with
    | .panicked w2 => .panicked w2
    | .returned w2 =>
      step f.dwellTime (fun w re => { w with dwexp := some re }) w2

/-! ## `supplyPCounterCallback` -/

/-- The `switch` of the loop body: for one event, `some true` when it is
appended to `evts`, `some false` when it is skipped, `none` when the selected
pattern pointer is nil and `MatchString` dereferences it. -/
def keepEvent (w : World) (deviceId : String) (ev : PEvent) : Option Bool :=
  if ev.Typ = "counter" then
    match w.ctexp with
    | none => none
    | some re => some (re.MatchString deviceId)
  else if ev.Typ = "fillLevel" then
    match w.flexp with
    | none => none
    | some re => some (re.MatchString deviceId)
  else if ev.Typ = "dwellTime" then
    match w.dwexp with
    | none => none
    | some re => some (re.MatchString deviceId)
  else some false

/-- The `for _, ev := range pc.Data` loop, with the accumulator `evts`;
`none` when an iteration panics. -/
def filterLoop (w : World) (deviceId : String) : List PEvent → List PEvent → Option (List PEvent)
  | [], evts => some evts
  | ev :: rest, evts =>
    match keepEvent w deviceId ev with
    | none => none
    | some true => filterLoop w deviceId rest (evts ++ [ev])
    | some false => filterLoop w deviceId rest evts

/-- The transform step (source lines 59 to 76): filter `pc.Data` and store the
result back in `pc`. -/
def transform (w : World) (pc : PCounter) : Option PCounter :=
  match filterLoop w pc.DeviceId pc.Data [] with
  | none => none
  | some evts => some { pc with Data := evts }

/-- Embedding of `supplyPCounterCallback`. -/
def supplyPCounterCallback (E : Env) (sp : Supply) (w : World) : Outcome :=
  match sp.Cdata with
  | none => .panicked w
  | some cdata =>
    match E.Unmarshal cdata.Entity with
    | none => .returned w
    | some pc =>
      match transform w pc with
      | none => .panicked w
      | some pc1 =>
        let smo : SupplyOpts := { Name := "PCounter", Cdata := { Entity := E.Marshal pc1 } }
        match E.NotifySupply smo with
        | some nerr =>
          .returned ((w.emit (.notifySupply smo false)).emit (.logPrintf "Send Fail!\n" [nerr]))
        | none =>
          .returned { w.emit (.notifySupply smo true) with
                      msgCount := wrapInt64 (w.msgCount + 1) }

/-! ## `reconnectClient` and the subscription loop -/

/-- First critical section of `reconnectClient` (source lines 94 to 99): a
live handle is set to nil and the reset is logged. -/
def reconnectReset (w : World) : World :=
  if w.client.Client ≠ none then
    ({ w with client := { Client := none } }).emit (.logPrintf "Client reset \n" [])
  else w

/-- Second critical section of `reconnectClient` (source lines 101 to 111):
with a nil handle, dial the source server and install the connection when
the dial succeeds (`dial = some newClt`); with a live handle, only log. -/
def reconnectRetry (dial : Option Conn) (w : World) : World :=
  if w.client.Client = none then
    let w1 := w.emit (.grpcConnectServer w.sxSrcServerAddress)
    match dial with
    | some newClt =>
      { w1.emit (.logPrintf "Reconnect server [%s]\n" [w.sxSrcServerAddress]) with
        client := { Client := some newClt } }
    | none => w1
  else w.emit (.logPrintf "Use reconnected server\n" [w.sxSrcServerAddress])

/-- What the surroundings contribute to one call of `reconnectClient`: the
handle another goroutine installs while this one sleeps (`none` when nobody
does), and the result of `sxutil.GrpcConnectServer` (`none` is a nil
connection). -/
structure Round where
  other : Option Conn
  dial : Option Conn
  deriving DecidableEq, Repr

/-- The world when the sleep starts: the call is entered (recorded as the
action `reconnectClient`) and the first critical section has run. -/
def reconnectAsleep (w : World) : World :=
  reconnectReset (w.emit .reconnectClient)

/-- The world when the sleep ends: five seconds were slept and another
goroutine may have installed a handle. -/
def reconnectAwake (r : Round) (w : World) : World :=
  let w1 := (reconnectAsleep w).emit (.sleep 5)
  match r.other with
  | some h => { w1 with client := { Client := some h } }
  | none => w1

/-- Embedding of `reconnectClient`. -/
def reconnectClient (r : Round) (w : World) : World :=
  reconnectRetry r.dial (reconnectAwake r w)

/-- Embedding of the loop of `subscribePCounterSupply`, run over the stream
terminations in `rounds`: each one is a `SubscribeSupply` call that returned,
followed by the log line and `reconnectClient`.  When the list is used up the
loop has issued the `SubscribeSupply` call that is still blocked. -/
def subscribePCounterSupply : List Round → World → World
  | [], w => w.emit .subscribeSupply
  | r :: rounds, w =>
    subscribePCounterSupply rounds
      (reconnectClient r ((w.emit .subscribeSupply).emit (.logPrint "Error on subscribe")))

/-! ## Status reporters -/

/-- Decimal rendering of `%d`. -/
def fmtInt (x : Int) : String := toString x

/-- One iteration of the loop of `monitorStatus`. -/
def monitorStatusTick (w : World) : World :=
  (w.emit (.setNodeStatus .src (toInt32 w.msgCount) ("recv:" ++ fmtInt w.msgCount))).emit
    (.sleep 3)

/-- One iteration of the loop of `monitorStatusDst`. -/
def monitorStatusDstTick (w : World) : World :=
  (w.emit (.setNodeStatus .dst (toInt32 w.msgCount) ("sent:" ++ fmtInt w.msgCount))).emit
    (.sleep 3)

/-- Embedding of `monitorStatus`, run for `n` iterations. -/
def monitorStatus : Nat → World → World
  | 0, w => w
  | n + 1, w => monitorStatus n (monitorStatusTick w)

/-- Embedding of `monitorStatusDst`, run for `n` iterations. -/
def monitorStatusDst : Nat → World → World
  | 0, w => w
  | n + 1, w => monitorStatusDst n (monitorStatusDstTick w)

/-! ## `main` -/

/-- The library calls made by `main`: pattern compilation, the two node
registrations (`none` is an error, `some a` the server address), the dial,
and the build strings printed in the banner. -/
structure Startup where
  MustCompile : String → Option Regexp
  RegisterNode : String → Option String
  RegisterNodeWithCmd : String → Option String
  GrpcConnectServer : String → Option Conn
  GitVer : String
  BuildTime : String
  Sha1Ver : String

/-- How `main` ends. -/
inductive Exit
  | fatal (msg : String)
  | panic
  | serving
  deriving DecidableEq, Repr

/-- The part of `main` after the address check (source lines 148 to 188). -/
def mainServe (S : Startup) (f : Flags) (w : World) : Exit × World :=
  match prepFilters S.MustCompile f w with
  | .panicked w1 => (.panic, w1)
  | .returned w1 =>
    let w2 := (((w1.emit .goHandleSigInt).emit (.registerDeferFunction "sxutil.UnRegisterNode")).emit
      .newNodeServInfo).emit (.registerDeferFunction "dstNI.UnRegisterNode")
    let w3 := w2.emit (.registerNode .src f.srcSrv "PCFowardSrc")
    match S.RegisterNode f.srcSrv with
    | none =>
      (.fatal "Can't register to source node...",
        w3.emit (.logFatal "Can't register to source node..."))
    | some srcSSrv =>
      let w4 := { w3.emit (.logPrintf "Connecting Source Server [%s]\n" [srcSSrv]) with
                  sxSrcServerAddress := srcSSrv }
      let w5 := w4.emit (.registerNode .dst f.dstSrv "PCFowardDst")
      match S.RegisterNodeWithCmd f.dstSrv with
      | none =>
        (.fatal "Can't register to destination node...",
          w5.emit (.logFatal "Can't register to destination node..."))
      | some dstSSrv =>
        let w6 := { w5.emit (.logPrintf "Connecting Destination Server [%s]\n" [dstSSrv]) with
                    sxDstServerAddress := dstSSrv }
        let w7 := { (w6.emit (.grpcConnectServer srcSSrv)).emit
                      (.newSXServiceClient .src "\x7bPCForwardSink\x7d") with
                    client := { Client := S.GrpcConnectServer srcSSrv } }
        let w8 := (w7.emit (.grpcConnectServer dstSSrv)).emit
                      (.newSXServiceClient .dst "\x7bPCForwardSrc\x7d")
        (.serving,
          ((w8.emit (.go "subscribePCounterSupply")).emit (.go "monitorStatus")).emit
            (.go "monitorStatusDst"))

/-- The start of `main` up to the banner line (source lines 139 to 142). -/
def mainBanner (S : Startup) : World :=
  (((World.init.emit .flagParse).emit .goHandleSigInt).emit
    (.registerDeferFunction "sxutil.UnRegisterNode")).emit
    (.logPrintf "PCounter-Store(%s) built %s sha1 %s" [S.GitVer, S.BuildTime, S.Sha1Ver])

/-- Embedding of `main`, from the state left by `init` up to `wg.Wait()`. -/
def main (S : Startup) (f : Flags) : Exit × World :=
  if f.srcSrv = f.dstSrv then
    (.fatal "Input servers should not be same address",
      (mainBanner S).emit (.logFatal "Input servers should not be same address"))
  else mainServe S f (mainBanner S)

/-! ## Concurrent calls of `reconnectClient` -/

/-- One atomic step of a call of `reconnectClient`: its first critical
section (after which the call sleeps), or its second one, with the result of
its dial. -/
inductive Step
  | reset (call : Nat)
  | retry (call : Nat) (dial : Option Conn)
  deriving DecidableEq, Repr

/-- The call a step belongs to. -/
def Step.call : Step → Nat
  | .reset i => i
  | .retry i _ => i

/-- Whether a step is a first critical section. -/
def Step.isReset : Step → Bool
  | .reset _ => true
  | .retry _ _ => false

/-- Whether a step is a second critical section whose dial would succeed. -/
def Step.dialOk : Step → Bool
  | .reset _ => false
  | .retry _ d => d.isSome

/-- The state of a race: the world, and three observations kept beside it:
the call that installed the live handle now in place (`none` for a nil
handle or the handle the race started with), how many steps installed a
handle, and how many steps removed or replaced a live handle that another
call of the race had installed. -/
structure Race where
  world : World
  owner : Option Nat
  installs : Nat
  clobbers : Nat

/-- The start of a race. -/
def Race.start (w : World) : Race :=
  { world := w, owner := none, installs := 0, clobbers := 0 }

/-- Update the observations from the handle before and after a step of call
`i`. -/
def Race.observe (s : Race) (i : Nat) (w : World) : Race :=
  let before := s.world.client.Client
  let after := w.client.Client
  { world := w
    owner := if after = before then s.owner else if after.isSome then some i else none
    installs := if after ≠ before ∧ after.isSome then s.installs + 1 else s.installs
    clobbers :=
      if before.isSome ∧ s.owner.isSome ∧ s.owner ≠ some i ∧ after ≠ before then s.clobbers + 1
      else s.clobbers }

/-- Run one atomic step. -/
def Race.step (s : Race) : Step → Race
  | .reset i => s.observe i ((reconnectAsleep s.world).emit (.sleep 5))
  | .retry i dial => s.observe i (reconnectRetry dial s.world)

/-- Run a schedule of atomic steps. -/
def Race.run (s : Race) (sched : List Step) : Race :=
  sched.foldl Race.step s

/-- A schedule is an interleaving of `n` calls: it has `2 * n` steps, and for
each call `i < n` the steps of call `i` are one reset followed by one retry. -/
def interleaving (n : Nat) (sched : List Step) : Bool :=
  decide (sched.length = 2 * n) &&
    (List.range n).all fun i =>
      (sched.filter fun st => st.call = i).map Step.isReset = [true, false]

/-- Every first critical section runs before every second one: all calls
are asleep at the same time. -/
def resetsFirst (sched : List Step) : Bool :=
  (sched.dropWhile Step.isReset).all fun st => !st.isReset

/-! ## Vocabulary of the statements -/

/-- The three categories named in the `switch`. -/
def recognised (typ : String) : Bool :=
  typ = "counter" || typ = "fillLevel" || typ = "dwellTime"

/-- The pattern pointer of a category in the Filter Set held by the world;
`none` for an unrecognised category and for a nil pointer. -/
def World.pattern (w : World) (typ : String) : Option Regexp :=
  if typ = "counter" then w.ctexp
  else if typ = "fillLevel" then w.flexp
  else if typ = "dwellTime" then w.dwexp
  else none

/-- The retention predicate in the words of the specification: the category
is one of the three recognised ones and its pattern matches the key. -/
def matchesSpec (w : World) (category key : String) : Bool :=
  recognised category &&
    match w.pattern category with
    | some re => re.MatchString key
    | none => false

/-- The `SupplyOpts` the callback builds around an encoded record. -/
def pcounterSupply (body : Bytes) : SupplyOpts :=
  { Name := "PCounter", Cdata := { Entity := body } }

/-- Whether an action is a publish attempt. -/
def Action.isNotify : Action → Bool
  | .notifySupply _ _ => true
  | _ => false

/-- Whether an action is a publish attempt that succeeded. -/
def Action.isNotifyOk : Action → Bool
  | .notifySupply _ ok => ok
  | _ => false

/-- Whether an action is a log line. -/
def Action.isLog : Action → Bool
  | .logPrintf _ _ => true
  | .logPrint _ => true
  | .logFatal _ => true
  | _ => false

/-- Whether an action is a dial of a server. -/
def Action.isDial : Action → Bool
  | .grpcConnectServer _ => true
  | _ => false

/-- Whether an action is a node registration, a pattern compilation or a
dial. -/
def Action.isStartupWork : Action → Bool
  | .registerNode _ _ _ => true
  | .mustCompile _ => true
  | .grpcConnectServer _ => true
  | _ => false

/-- Whether an action belongs to the skeleton of the subscription loop: a
subscribe call, an entry of `reconnectClient`, or a sleep. -/
def Action.isLoopCall : Action → Bool
  | .subscribeSupply => true
  | .reconnectClient => true
  | .sleep _ => true
  | _ => false

/-- Total number of seconds slept in a trace. -/
def sleepTotal : List Action → Nat
  | [] => 0
  | .sleep n :: rest => n + sleepTotal rest
  | _ :: rest => sleepTotal rest

/-- A stand-in for `regexp.MustCompile` on patterns made of letters, digits
and hyphens only: such a pattern has no metacharacter, so its partial match
is substring containment.  Any other pattern is rejected. -/
def compileLiteral (pat : String) : Option Regexp :=
  if pat.data.all (fun c => c.isAlphanum || c == '-') then
    some { expr := pat, MatchString := fun s => decide (pat.data <:+: s.data) }
  else none

/-! ## Sample inputs and trace skeletons -/

/-- The world after `prepFilters` with only `-counter device-1` given. -/
def counterOnlyWorld : World :=
  { World.init with
    ctexp := compileLiteral "device-1"
    trace := [.mustCompile "device-1"] }

/-- A record of device-1 with one counter event and one fillLevel event. -/
def mixedRecord : PCounter :=
  { DeviceId := "device-1", info := [],
    Data := [{ Typ := "counter", payload := [1] }, { Typ := "fillLevel", payload := [2] }] }

/-- The world after `prepFilters` with `-counter device-1 -fillLevel lobby`. -/
def twoPatternWorld : World :=
  { counterOnlyWorld with
    flexp := compileLiteral "lobby"
    trace := [.mustCompile "device-1", .mustCompile "lobby"] }

/-- A record of device-1 with a counter, a fillLevel and a `heartbeat`
event. -/
def threeEventRecord : PCounter :=
  { mixedRecord with Data := mixedRecord.Data ++ [{ Typ := "heartbeat", payload := [3] }] }

/-- A codec and a destination for the examples: every payload decodes to
`mixedRecord`, a record is encoded as the payload bytes of its events, and
every publish succeeds. -/
def acceptingEnv : Env where
  Unmarshal := fun _ => some mixedRecord
  Marshal := fun pc => (pc.Data.map PEvent.payload).flatten
  NotifySupply := fun _ => none

/-- An inbound supply with a one-byte body. -/
def sampleSupply : Supply := { Cdata := some { Entity := [7] } }

/-- A record of device-9, which neither `device-1` nor `lobby` matches, with
a counter, a fillLevel and a `heartbeat` event. -/
def otherDeviceRecord : PCounter := { threeEventRecord with DeviceId := "device-9" }

/-- A codec that decodes every payload to `otherDeviceRecord`. -/
def otherDeviceEnv : Env where
  Unmarshal := fun _ => some otherDeviceRecord
  Marshal := acceptingEnv.Marshal
  NotifySupply := acceptingEnv.NotifySupply

/-- A record of device-1 with a single counter event. -/
def counterRecord : PCounter :=
  { DeviceId := "device-1", info := [], Data := [{ Typ := "counter", payload := [1] }] }

/-- A codec that decodes every payload to `counterRecord`. -/
def counterEnv : Env where
  Unmarshal := fun _ => some counterRecord
  Marshal := acceptingEnv.Marshal
  NotifySupply := acceptingEnv.NotifySupply

/-- A codec that rejects every payload. -/
def rejectingEnv : Env where
  Unmarshal := fun _ => none
  Marshal := acceptingEnv.Marshal
  NotifySupply := acceptingEnv.NotifySupply

/-- The skeleton of `n` rounds of the loop: a subscribe call, an entry of
`reconnectClient` and a sleep of five seconds, `n` times. -/
def loopSkeleton : Nat → List Action
  | 0 => []
  | n + 1 => [.subscribeSupply, .reconnectClient, .sleep 5] ++ loopSkeleton n

/-- Library calls for the examples: literal patterns compile, both
registrations and every dial succeed. -/
def sampleStartup : Startup where
  MustCompile := compileLiteral
  RegisterNode := fun _ => some "10.0.0.1:10000"
  RegisterNodeWithCmd := fun _ => some "10.0.0.2:10000"
  GrpcConnectServer := fun _ => some 1
  GitVer := "v0"
  BuildTime := "now"
  Sha1Ver := "0000"

/-- Two calls, the second entering after the first has reconnected. -/
def lateSecondCall : List Step :=
  [.reset 0, .retry 0 (some 1), .reset 1, .retry 1 (some 2)]

/-- Two calls asleep together, both dials failing. -/
def bothDialsFail : List Step :=
  [.reset 0, .reset 1, .retry 0 none, .retry 1 none]

/-- A world whose source handle is the live connection 0. -/
def liveWorld : World := { World.init with client := { Client := some 0 } }

/-! ## Lemmas on the filter loop -/

theorem keepEvent_unrecognised (w : World) (deviceId : String) (ev : PEvent)
    (h : recognised ev.Typ = false) : keepEvent w deviceId ev = some false := by
  simp only [recognised, Bool.or_eq_false_iff, decide_eq_false_iff_not] at h
  obtain ⟨⟨h1, h2⟩, h3⟩ := h
  simp [keepEvent, h1, h2, h3]

theorem keepEvent_pattern (w : World) (deviceId : String) (ev : PEvent) (re : Regexp)
    (h : w.pattern ev.Typ = some re) :
    keepEvent w deviceId ev = some (re.MatchString deviceId) := by
  unfold World.pattern at h
  unfold keepEvent
  split_ifs at h ⊢ <;> simp_all

theorem keepEvent_matchesSpec (w : World) (deviceId : String) (ev : PEvent)
    (h : recognised ev.Typ = true → (w.pattern ev.Typ).isSome = true) :
    keepEvent w deviceId ev = some (matchesSpec w ev.Typ deviceId) := by
  cases hr : recognised ev.Typ with
  | false => simp [keepEvent_unrecognised w deviceId ev hr, matchesSpec, hr]
  | true =>
    obtain ⟨re, hre⟩ := Option.isSome_iff_exists.mp (h hr)
    simp [keepEvent_pattern w deviceId ev re hre, matchesSpec, hr, hre]

theorem keepEvent_nil_pointer (w : World) (deviceId : String) (ev : PEvent)
    (hr : recognised ev.Typ = true) (h : w.pattern ev.Typ = none) :
    keepEvent w deviceId ev = none := by
  simp only [recognised, Bool.or_eq_true, decide_eq_true_eq] at hr
  unfold World.pattern at h
  unfold keepEvent
  split_ifs at h ⊢ <;> simp_all

theorem filterLoop_eq_filter (w : World) (deviceId : String) (p : PEvent → Bool) :
    ∀ (l evts : List PEvent), (∀ ev ∈ l, keepEvent w deviceId ev = some (p ev)) →
      filterLoop w deviceId l evts = some (evts ++ l.filter p) := by
  intro l
  induction l with
  | nil => intro evts _; simp [filterLoop]
  | cons ev rest ih =>
    intro evts h
    have hev := h ev (List.mem_cons_self _ _)
    have hrest : ∀ e ∈ rest, keepEvent w deviceId e = some (p e) :=
      fun e he => h e (List.mem_cons_of_mem _ he)
    cases hp : p ev with
    | false =>
      rw [hp] at hev
      simp [filterLoop, hev, ih evts hrest, hp]
    | true =>
      rw [hp] at hev
      simp [filterLoop, hev, ih (evts ++ [ev]) hrest, hp]

theorem filterLoop_panics (w : World) (deviceId : String) :
    ∀ (l evts : List PEvent), (∃ ev ∈ l, keepEvent w deviceId ev = none) →
      filterLoop w deviceId l evts = none := by
  intro l
  induction l with
  | nil => intro evts h; simp at h
  | cons ev rest ih =>
    intro evts h
    obtain ⟨e, he, hk⟩ := h
    cases hev : keepEvent w deviceId ev with
    | none => simp [filterLoop, hev]
    | some b =>
      have hmem : e ∈ rest := by
        rcases List.mem_cons.mp he with h1 | h1
        · subst h1; rw [hk] at hev; cases hev
        · exact h1
      cases b <;> simp [filterLoop, hev, ih _ ⟨e, hmem, hk⟩]

/-! ## The transform step -/

/-- C1. For a decoded record `pc` and a Filter Set in which every recognised
category occurring among the events of `pc` has a compiled pattern, the
transform step returns a record with the same device ID (and the same other
fields) whose event list is `pc.Data` filtered, in order, by "the category is
recognised and its pattern matches the device ID"; no event of another
category is in the result. -/
theorem transform_filters_by_category (w : World) (pc : PCounter)
    (h : ∀ ev ∈ pc.Data, recognised ev.Typ = true → (w.pattern ev.Typ).isSome = true) :
    ∃ pc1, transform w pc = some pc1 ∧
      pc1.DeviceId = pc.DeviceId ∧ pc1.info = pc.info ∧
      pc1.Data = pc.Data.filter (fun ev => matchesSpec w ev.Typ pc.DeviceId) ∧
      ∀ ev ∈ pc1.Data, recognised ev.Typ = true := by
  have hloop := filterLoop_eq_filter w pc.DeviceId
    (fun ev => matchesSpec w ev.Typ pc.DeviceId) pc.Data []
    (fun ev hev => keepEvent_matchesSpec w pc.DeviceId ev (h ev hev))
  refine ⟨{ pc with Data := pc.Data.filter (fun ev => matchesSpec w ev.Typ pc.DeviceId) },
    ?_, rfl, rfl, rfl, ?_⟩
  · simp [transform, hloop]
  · intro ev hev
    have hm := (List.mem_filter.mp hev).2
    simp only [matchesSpec, Bool.and_eq_true] at hm
    exact hm.1

/-- Witness of C1: the patterns `device-1` for counter and `lobby` for
fillLevel, on a record of device-1 with a counter, a fillLevel and a
`heartbeat` event. -/
theorem transform_filters_by_category_witness :
    ∃ pc1, transform twoPatternWorld threeEventRecord = some pc1 ∧
      pc1.DeviceId = threeEventRecord.DeviceId ∧ pc1.info = threeEventRecord.info ∧
      pc1.Data = threeEventRecord.Data.filter
        (fun ev => matchesSpec twoPatternWorld ev.Typ threeEventRecord.DeviceId) ∧
      ∀ ev ∈ pc1.Data, recognised ev.Typ = true :=
  transform_filters_by_category twoPatternWorld threeEventRecord (by decide)

theorem transform_nil_pointer (w : World) (pc : PCounter) (ev : PEvent) (hev : ev ∈ pc.Data)
    (hr : recognised ev.Typ = true) (hnil : w.pattern ev.Typ = none) :
    transform w pc = none := by
  have := filterLoop_panics w pc.DeviceId pc.Data []
    ⟨ev, hev, keepEvent_nil_pointer w pc.DeviceId ev hr hnil⟩
  simp [transform, this]

/-- C2 (the code at the failing input). With only `-counter device-1` given,
`prepFilters` leaves `flexp` nil; on the record of device-1 with one counter
and one fillLevel event the specification keeps exactly the counter event,
but the transform step dereferences the nil `flexp` and the callback
panics, with nothing published. -/
theorem unset_category_panics :
    prepFilters compileLiteral { counterFilter := "device-1" } World.init
      = .returned counterOnlyWorld ∧
    counterOnlyWorld.flexp.isNone = true ∧
    mixedRecord.Data.filter (fun ev => matchesSpec counterOnlyWorld ev.Typ mixedRecord.DeviceId)
      = [{ Typ := "counter", payload := [1] }] ∧
    transform counterOnlyWorld mixedRecord = none ∧
    (supplyPCounterCallback acceptingEnv sampleSupply counterOnlyWorld).isReturned = false ∧
    (supplyPCounterCallback acceptingEnv sampleSupply counterOnlyWorld).world.trace
      = counterOnlyWorld.trace := by
  refine ⟨rfl, rfl, by decide, by decide, by decide, by decide⟩

/-! ## The callback -/

/-- On the paths that reach no nil pattern pointer: for a decoded record each
of whose events is of an unrecognised category, or of a category whose
compiled pattern does not match the device ID (in particular a record
without events), the transform step returns the record with an empty event
list, and the callback returns normally having made exactly one publish
attempt, which carries the encoding of that empty-list record. -/
theorem empty_result_is_published (E : Env) (sp : Supply) (c : Content) (pc : PCounter)
    (w : World) (hc : sp.Cdata = some c) (hd : E.Unmarshal c.Entity = some pc)
    (hnone : ∀ ev ∈ pc.Data, recognised ev.Typ = false ∨
      ∃ re, w.pattern ev.Typ = some re ∧ re.MatchString pc.DeviceId = false) :
    transform w pc = some { pc with Data := [] } ∧
    (supplyPCounterCallback E sp w).isReturned = true ∧
    ∃ new ok, (supplyPCounterCallback E sp w).world.trace = w.trace ++ new ∧
      new.filter Action.isNotify =
        [.notifySupply (pcounterSupply (E.Marshal { pc with Data := [] })) ok] := by
  have hkeep : ∀ ev ∈ pc.Data, keepEvent w pc.DeviceId ev = some ((fun _ => false) ev) := by
    intro ev hev
    rcases hnone ev hev with h | ⟨re, hre, hm⟩
    · exact keepEvent_unrecognised w pc.DeviceId ev h
    · rw [keepEvent_pattern w pc.DeviceId ev re hre, hm]
  have hloop := filterLoop_eq_filter w pc.DeviceId (fun _ => false) pc.Data [] hkeep
  have ht : transform w pc = some { pc with Data := [] } := by
    simp [transform, hloop]
  refine ⟨ht, ?_⟩
  cases hn : E.NotifySupply
      { Name := "PCounter", Cdata := { Entity := E.Marshal { pc with Data := [] } } } with
  | none =>
    refine ⟨by simp [supplyPCounterCallback, hc, hd, ht, hn, Outcome.isReturned], ?_⟩
    exact ⟨[.notifySupply (pcounterSupply (E.Marshal { pc with Data := [] })) true], true,
      by simp [supplyPCounterCallback, hc, hd, ht, hn, Outcome.world, World.emit, pcounterSupply],
      by simp [Action.isNotify]⟩
  | some nerr =>
    refine ⟨by simp [supplyPCounterCallback, hc, hd, ht, hn, Outcome.isReturned], ?_⟩
    exact ⟨[.notifySupply (pcounterSupply (E.Marshal { pc with Data := [] })) false,
        .logPrintf "Send Fail!\n" [nerr]], false,
      by simp [supplyPCounterCallback, hc, hd, ht, hn, Outcome.world, World.emit, pcounterSupply],
      by simp [Action.isNotify]⟩

/-- An instance of the lemma above: patterns `device-1` and `lobby`, a record
of device-9. -/
theorem empty_result_is_published_witness :
    transform twoPatternWorld otherDeviceRecord = some { otherDeviceRecord with Data := [] } ∧
    (supplyPCounterCallback otherDeviceEnv sampleSupply twoPatternWorld).isReturned = true ∧
    ∃ new ok, (supplyPCounterCallback otherDeviceEnv sampleSupply twoPatternWorld).world.trace
        = twoPatternWorld.trace ++ new ∧
      new.filter Action.isNotify =
        [.notifySupply
          (pcounterSupply (otherDeviceEnv.Marshal { otherDeviceRecord with Data := [] })) ok] :=
  empty_result_is_published otherDeviceEnv sampleSupply { Entity := [7] } otherDeviceRecord
    twoPatternWorld rfl rfl (by decide)

/-- C3 (the code at the failing input). With no pattern flag given,
`prepFilters` leaves all three pointers nil; for the record of device-1 with
one counter event the specification retains nothing, so an empty-list record
should be published, but the transform step dereferences the nil `ctexp`, the
callback panics, and its trace holds no publish attempt.  The same happens
with only `-counter device-1` given and a record of device-9 holding a
counter, a fillLevel and a `heartbeat` event: nothing is retained, and the
nil `flexp` is dereferenced. -/
theorem unretained_record_panics :
    prepFilters compileLiteral { dstSrv := "127.0.0.1:9991" } World.init
      = .returned World.init ∧
    counterRecord.Data.filter (fun ev => matchesSpec World.init ev.Typ counterRecord.DeviceId)
      = [] ∧
    transform World.init counterRecord = none ∧
    (supplyPCounterCallback counterEnv sampleSupply World.init).isReturned = false ∧
    (supplyPCounterCallback counterEnv sampleSupply World.init).world.trace.filter
      Action.isNotify = [] ∧
    otherDeviceRecord.Data.filter
      (fun ev => matchesSpec counterOnlyWorld ev.Typ otherDeviceRecord.DeviceId) = [] ∧
    transform counterOnlyWorld otherDeviceRecord = none ∧
    (supplyPCounterCallback otherDeviceEnv sampleSupply counterOnlyWorld).isReturned = false ∧
    (supplyPCounterCallback otherDeviceEnv sampleSupply counterOnlyWorld).world.trace.filter
      Action.isNotify = [] := by
  refine ⟨rfl, by decide, by decide, by decide, by decide, by decide, by decide, by decide,
    by decide⟩

/-- C4. When decoding of the inbound payload fails the callback returns
normally and leaves the world as it was: the trace gains no publish attempt
and no log line, and `msgCount` keeps its value. -/
theorem decode_failure_is_silent (E : Env) (sp : Supply) (c : Content) (w : World)
    (hc : sp.Cdata = some c) (hd : E.Unmarshal c.Entity = none) :
    supplyPCounterCallback E sp w = .returned w ∧
    (supplyPCounterCallback E sp w).world.trace = w.trace ∧
    (supplyPCounterCallback E sp w).world.msgCount = w.msgCount := by
  simp [supplyPCounterCallback, hc, hd, Outcome.world]

/-- Witness of C4: a codec that rejects every payload. -/
theorem decode_failure_is_silent_witness :
    supplyPCounterCallback rejectingEnv sampleSupply twoPatternWorld = .returned twoPatternWorld ∧
    (supplyPCounterCallback rejectingEnv sampleSupply twoPatternWorld).world.trace
      = twoPatternWorld.trace ∧
    (supplyPCounterCallback rejectingEnv sampleSupply twoPatternWorld).world.msgCount
      = twoPatternWorld.msgCount :=
  decode_failure_is_silent rejectingEnv sampleSupply { Entity := [7] } twoPatternWorld rfl rfl

theorem wrapInt64_of_range (x : Int) (hlo : -2 ^ 63 ≤ x) (hhi : x < 2 ^ 63) :
    wrapInt64 x = x := by
  unfold wrapInt64
  norm_num at hlo hhi ⊢
  omega

/-- C5 (counterexample). With `msgCount` at the largest `int64` value, an
invocation whose publish succeeds leaves `msgCount` at the smallest `int64`
value: not the old value plus one, and smaller than before. -/
theorem counter_wraps_at_max :
    (supplyPCounterCallback acceptingEnv sampleSupply
      { twoPatternWorld with msgCount := 2 ^ 63 - 1 }).isReturned = true ∧
    (supplyPCounterCallback acceptingEnv sampleSupply
      { twoPatternWorld with msgCount := 2 ^ 63 - 1 }).world.trace.any Action.isNotifyOk = true ∧
    (supplyPCounterCallback acceptingEnv sampleSupply
      { twoPatternWorld with msgCount := 2 ^ 63 - 1 }).world.msgCount = -2 ^ 63 ∧
    (supplyPCounterCallback acceptingEnv sampleSupply
      { twoPatternWorld with msgCount := 2 ^ 63 - 1 }).world.msgCount ≠ (2 ^ 63 - 1) + 1 ∧
    (supplyPCounterCallback acceptingEnv sampleSupply
      { twoPatternWorld with msgCount := 2 ^ 63 - 1 }).world.msgCount < 2 ^ 63 - 1 := by
  refine ⟨by decide, by decide, by decide, by decide, by decide⟩

/-- C5 (amended). For every invocation whose starting counter value `c` is an
`int64` value below the largest one, the invocation makes at most one publish
attempt, and the counter afterwards is `c + 1` if that attempt succeeded and
`c` in every other outcome (decoding failure, publish failure, panic); so it
does not decrease and rises by exactly one per successful publish. -/
theorem counter_follows_publish (E : Env) (sp : Supply) (w : World)
    (hlo : -2 ^ 63 ≤ w.msgCount) (hhi : w.msgCount < 2 ^ 63 - 1) :
    ∃ new, (supplyPCounterCallback E sp w).world.trace = w.trace ++ new ∧
      (new.filter Action.isNotify).length ≤ 1 ∧
      (supplyPCounterCallback E sp w).world.msgCount =
        (if new.any Action.isNotifyOk then w.msgCount + 1 else w.msgCount) ∧
      w.msgCount ≤ (supplyPCounterCallback E sp w).world.msgCount := by
  have hw : wrapInt64 (w.msgCount + 1) = w.msgCount + 1 :=
    wrapInt64_of_range _ (by omega) (by omega)
  cases hc : sp.Cdata with
  | none => exact ⟨[], by simp [supplyPCounterCallback, hc, Outcome.world]⟩
  | some c =>
    cases hd : E.Unmarshal c.Entity with
    | none => exact ⟨[], by simp [supplyPCounterCallback, hc, hd, Outcome.world]⟩
    | some pc =>
      cases ht : transform w pc with
      | none => exact ⟨[], by simp [supplyPCounterCallback, hc, hd, ht, Outcome.world]⟩
      | some pc1 =>
        cases hn : E.NotifySupply
            { Name := "PCounter", Cdata := { Entity := E.Marshal pc1 } } with
        | none =>
          exact ⟨[.notifySupply { Name := "PCounter", Cdata := { Entity := E.Marshal pc1 } } true],
            by simp [supplyPCounterCallback, hc, hd, ht, hn, Outcome.world, World.emit,
              Action.isNotify, Action.isNotifyOk, hw]⟩
        | some nerr =>
          exact ⟨[.notifySupply { Name := "PCounter", Cdata := { Entity := E.Marshal pc1 } } false,
              .logPrintf "Send Fail!\n" [nerr]],
            by simp [supplyPCounterCallback, hc, hd, ht, hn, Outcome.world, World.emit,
              Action.isNotify, Action.isNotifyOk]⟩

/-- Witness of C5 (amended): the counter at 41, a publish that succeeds. -/
theorem counter_follows_publish_witness :
    ∃ new, (supplyPCounterCallback acceptingEnv sampleSupply
        { twoPatternWorld with msgCount := 41 }).world.trace
          = ({ twoPatternWorld with msgCount := 41 } : World).trace ++ new ∧
      (new.filter Action.isNotify).length ≤ 1 ∧
      (supplyPCounterCallback acceptingEnv sampleSupply
        { twoPatternWorld with msgCount := 41 }).world.msgCount =
        (if new.any Action.isNotifyOk
          then ({ twoPatternWorld with msgCount := 41 } : World).msgCount + 1
          else ({ twoPatternWorld with msgCount := 41 } : World).msgCount) ∧
      ({ twoPatternWorld with msgCount := 41 } : World).msgCount ≤
        (supplyPCounterCallback acceptingEnv sampleSupply
          { twoPatternWorld with msgCount := 41 }).world.msgCount :=
  counter_follows_publish acceptingEnv sampleSupply { twoPatternWorld with msgCount := 41 }
    (by decide) (by decide)

/-! ## `reconnectClient` -/

theorem reconnectAsleep_spec (w : World) :
    (reconnectAsleep w).client.Client = none ∧
    (reconnectAsleep w).sxSrcServerAddress = w.sxSrcServerAddress ∧
    ∃ new, (reconnectAsleep w).trace = w.trace ++ new ∧
      new.filter Action.isLoopCall = [.reconnectClient] ∧
      new.filter Action.isDial = [] ∧ sleepTotal new = 0 := by
  cases hcl : w.client.Client with
  | none =>
    refine ⟨by simp [reconnectAsleep, reconnectReset, World.emit, hcl],
      by simp [reconnectAsleep, reconnectReset, World.emit, hcl], [.reconnectClient], ?_⟩
    simp [reconnectAsleep, reconnectReset, World.emit, hcl, Action.isLoopCall, Action.isDial,
      sleepTotal]
  | some h =>
    refine ⟨by simp [reconnectAsleep, reconnectReset, World.emit, hcl],
      by simp [reconnectAsleep, reconnectReset, World.emit, hcl],
      [.reconnectClient, .logPrintf "Client reset \n" []], ?_⟩
    simp [reconnectAsleep, reconnectReset, World.emit, hcl, Action.isLoopCall, Action.isDial,
      sleepTotal]

theorem sleepTotal_append (a b : List Action) :
    sleepTotal (a ++ b) = sleepTotal a + sleepTotal b := by
  induction a with
  | nil => simp [sleepTotal]
  | cons x rest ih => cases x <;> simp [sleepTotal, ih, Nat.add_assoc]

theorem reconnectAwake_spec (r : Round) (w : World) :
    (reconnectAwake r w).client.Client = r.other ∧
    (reconnectAwake r w).sxSrcServerAddress = w.sxSrcServerAddress ∧
    ∃ new, (reconnectAwake r w).trace = w.trace ++ new ∧
      new.filter Action.isLoopCall = [.reconnectClient, .sleep 5] ∧
      new.filter Action.isDial = [] ∧ sleepTotal new = 5 := by
  obtain ⟨hcl, haddr, new, htr, hloop, hdial, hsl⟩ := reconnectAsleep_spec w
  refine ⟨?_, ?_, new ++ [.sleep 5], ?_, ?_, ?_, ?_⟩
  · cases ho : r.other <;> simp [reconnectAwake, ho, World.emit, hcl]
  · cases ho : r.other <;> simp [reconnectAwake, ho, World.emit, haddr]
  · cases ho : r.other <;> simp [reconnectAwake, ho, World.emit, htr]
  · simp [List.filter_append, hloop, Action.isLoopCall]
  · simp [List.filter_append, hdial, Action.isDial]
  · simp [sleepTotal_append, hsl, sleepTotal]

theorem reconnectRetry_spec (dial : Option Conn) (w : World) :
    (reconnectRetry dial w).client.Client =
      (match w.client.Client with
        | some h => some h
        | none => dial) ∧
    (reconnectRetry dial w).sxSrcServerAddress = w.sxSrcServerAddress ∧
    ∃ new, (reconnectRetry dial w).trace = w.trace ++ new ∧
      new.filter Action.isLoopCall = [] ∧
      new.filter Action.isDial =
        (if w.client.Client = none then [.grpcConnectServer w.sxSrcServerAddress] else []) ∧
      sleepTotal new = 0 := by
  cases hcl : w.client.Client with
  | some h =>
    refine ⟨by simp [reconnectRetry, hcl, World.emit], by simp [reconnectRetry, hcl, World.emit],
      [.logPrintf "Use reconnected server\n" [w.sxSrcServerAddress]], ?_⟩
    simp [reconnectRetry, hcl, World.emit, Action.isLoopCall, Action.isDial, sleepTotal]
  | none =>
    cases dial with
    | none =>
      refine ⟨by simp [reconnectRetry, hcl, World.emit],
        by simp [reconnectRetry, hcl, World.emit],
        [.grpcConnectServer w.sxSrcServerAddress], ?_⟩
      simp [reconnectRetry, hcl, World.emit, Action.isLoopCall, Action.isDial, sleepTotal]
    | some c =>
      refine ⟨by simp [reconnectRetry, hcl, World.emit],
        by simp [reconnectRetry, hcl, World.emit],
        [.grpcConnectServer w.sxSrcServerAddress,
          .logPrintf "Reconnect server [%s]\n" [w.sxSrcServerAddress]], ?_⟩
      simp [reconnectRetry, hcl, World.emit, Action.isLoopCall, Action.isDial, sleepTotal]

theorem reconnectClient_spec (r : Round) (w : World) :
    (reconnectClient r w).client.Client =
      (match r.other with
        | some h => some h
        | none => r.dial) ∧
    (reconnectClient r w).sxSrcServerAddress = w.sxSrcServerAddress ∧
    ∃ new, (reconnectClient r w).trace = w.trace ++ new ∧
      new.filter Action.isLoopCall = [.reconnectClient, .sleep 5] ∧
      new.filter Action.isDial =
        (if r.other = none then [.grpcConnectServer w.sxSrcServerAddress] else []) ∧
      sleepTotal new = 5 := by
  obtain ⟨hcl, haddr, new1, htr1, hloop1, hdial1, hsl1⟩ := reconnectAwake_spec r w
  obtain ⟨hcl2, haddr2, new2, htr2, hloop2, hdial2, hsl2⟩ :=
    reconnectRetry_spec r.dial (reconnectAwake r w)
  refine ⟨?_, ?_, new1 ++ new2, ?_, ?_, ?_, ?_⟩
  · rw [reconnectClient, hcl2, hcl]
  · rw [reconnectClient, haddr2, haddr]
  · rw [reconnectClient, htr2, htr1, List.append_assoc]
  · simp [List.filter_append, hloop1, hloop2]
  · rw [List.filter_append, hdial1, hdial2, hcl, haddr]; simp
  · simp [sleepTotal_append, hsl1, hsl2]

/-- C6. From any starting handle, live or nil, the handle is nil when the
sleep of `reconnectClient` starts and stays nil through it unless another
goroutine installs one.  If it is still nil after the sleep, exactly one dial
is made and the handle on return is the dial result: the new connection on
success, nil on failure.  If another goroutine installed the live handle `h`
during the sleep, no dial is made and `h` is in place on return.  The
function always returns, and the handle on return never depends on the
handle it started with. -/
theorem reconnectClient_handle (w : World) (h : Conn) (dial : Option Conn) :
    (reconnectAsleep w).client.Client = none ∧
    (reconnectAwake { other := none, dial := dial } w).client.Client = none ∧
    (reconnectClient { other := none, dial := dial } w).client.Client = dial ∧
    (∃ new, (reconnectClient { other := none, dial := dial } w).trace = w.trace ++ new ∧
      new.filter Action.isDial = [.grpcConnectServer w.sxSrcServerAddress]) ∧
    (reconnectClient { other := some h, dial := dial } w).client.Client = some h ∧
    (∃ new, (reconnectClient { other := some h, dial := dial } w).trace = w.trace ++ new ∧
      new.filter Action.isDial = []) ∧
    (∀ r : Round, (reconnectClient r w).client.Client =
      (reconnectClient r { w with client := { Client := none } }).client.Client) := by
  refine ⟨(reconnectAsleep_spec w).1, (reconnectAwake_spec _ w).1,
    (reconnectClient_spec _ w).1, ?_, (reconnectClient_spec _ w).1, ?_, ?_⟩
  · obtain ⟨_, _, new, htr, _, hdial, _⟩ := reconnectClient_spec { other := none, dial := dial } w
    exact ⟨new, htr, by simpa using hdial⟩
  · obtain ⟨_, _, new, htr, _, hdial, _⟩ :=
      reconnectClient_spec { other := some h, dial := dial } w
    exact ⟨new, htr, by simpa using hdial⟩
  · intro r
    rw [(reconnectClient_spec r w).1, (reconnectClient_spec r _).1]

/-! ## The subscription loop -/

theorem loopSkeleton_count (n : Nat) :
    (loopSkeleton n).count .subscribeSupply = n ∧
    (loopSkeleton n).count .reconnectClient = n ∧
    (loopSkeleton n).count (.sleep 5) = n ∧
    ∀ k, Action.sleep k ∈ loopSkeleton n → k = 5 := by
  induction n with
  | zero => simp [loopSkeleton]
  | succ n ih =>
    obtain ⟨h1, h2, h3, h4⟩ := ih
    refine ⟨?_, ?_, ?_, ?_⟩
    · simp [loopSkeleton, List.count_cons, h1]
    · simp [loopSkeleton, List.count_cons, h2]
    · simp [loopSkeleton, List.count_cons, h3]
    · intro k hk
      simp only [loopSkeleton, List.cons_append, List.nil_append, List.mem_cons] at hk
      rcases hk with hk | hk | hk | hk
      · cases hk
      · cases hk
      · cases hk; rfl
      · exact h4 k hk

theorem subscribePCounterSupply_trace :
    ∀ (rounds : List Round) (w : World),
      ∃ new, (subscribePCounterSupply rounds w).trace = w.trace ++ new ∧
        new.filter Action.isLoopCall = loopSkeleton rounds.length ++ [.subscribeSupply] ∧
        sleepTotal new = 5 * rounds.length := by
  intro rounds
  induction rounds with
  | nil =>
    intro w
    exact ⟨[.subscribeSupply], by
      simp [subscribePCounterSupply, World.emit, Action.isLoopCall, loopSkeleton, sleepTotal]⟩
  | cons r rest ih =>
    intro w
    obtain ⟨_, _, new1, htr1, hloop1, _, hsl1⟩ :=
      reconnectClient_spec r ((w.emit .subscribeSupply).emit (.logPrint "Error on subscribe"))
    obtain ⟨new2, htr2, hloop2, hsl2⟩ := ih
      (reconnectClient r ((w.emit .subscribeSupply).emit (.logPrint "Error on subscribe")))
    refine ⟨[.subscribeSupply, .logPrint "Error on subscribe"] ++ new1 ++ new2, ?_, ?_, ?_⟩
    · rw [subscribePCounterSupply, htr2, htr1]
      simp [World.emit]
    · simp only [List.filter_append, hloop1, hloop2]
      simp [Action.isLoopCall, loopSkeleton]
    · simp only [sleepTotal_append, hsl1, hsl2]
      simp [sleepTotal]
      omega

/-- C7. For every list of `N` stream terminations, whatever the dial results
and whatever other goroutines do to the handle, the loop of
`subscribePCounterSupply` makes this sequence of subscribe calls, entries of
`reconnectClient` and sleeps: (subscribe, reconnectClient, sleep 5) `N` times,
then one more subscribe.  So there are exactly `N` calls of
`reconnectClient`, each with exactly one sleep, every sleep lasts 5 seconds,
the total is `5 * N` seconds, and each call is followed by a new subscribe
call. -/
theorem loop_reconnects_once_per_termination (rounds : List Round) (w : World) :
    ∃ new, (subscribePCounterSupply rounds w).trace = w.trace ++ new ∧
      new.filter Action.isLoopCall = loopSkeleton rounds.length ++ [.subscribeSupply] ∧
      new.count .reconnectClient = rounds.length ∧
      new.count .subscribeSupply = rounds.length + 1 ∧
      new.count (.sleep 5) = rounds.length ∧
      (∀ k, Action.sleep k ∈ new → k = 5) ∧
      sleepTotal new = 5 * rounds.length := by
  obtain ⟨new, htr, hloop, hsl⟩ := subscribePCounterSupply_trace rounds w
  obtain ⟨h1, h2, h3, h4⟩ := loopSkeleton_count rounds.length
  have hcount : ∀ a : Action, a.isLoopCall = true →
      new.count a = (loopSkeleton rounds.length ++ [Action.subscribeSupply]).count a := by
    intro a ha
    rw [← hloop, List.count_filter ha]
  refine ⟨new, htr, hloop, ?_, ?_, ?_, ?_, hsl⟩
  · rw [hcount Action.reconnectClient rfl, List.count_append, h2]; simp
  · rw [hcount Action.subscribeSupply rfl, List.count_append, h1]; simp
  · rw [hcount (Action.sleep 5) rfl, List.count_append, h3]; simp
  · intro k hk
    have hmem : Action.sleep k ∈ new.filter Action.isLoopCall :=
      List.mem_filter.mpr ⟨hk, rfl⟩
    rw [hloop] at hmem
    rcases List.mem_append.mp hmem with hm | hm
    · exact h4 k hm
    · simp at hm

/-! ## Startup -/

theorem prepFilters_trace (C : String → Option Regexp) (f : Flags) (w : World) (m : String) :
    (prepFilters C f w).world.trace.count (.logFatal m) = w.trace.count (.logFatal m) ∧
    ∀ w1, prepFilters C f w = .returned w1 →
      w1.trace.count (.logFatal m) = w.trace.count (.logFatal m) := by
  by_cases h1 : f.counterFilter = "" <;> by_cases h2 : f.fillFilter = "" <;>
    by_cases h3 : f.dwellTime = "" <;> cases c1 : C f.counterFilter <;>
    cases c2 : C f.fillFilter <;> cases c3 : C f.dwellTime <;>
    simp [prepFilters, h1, h2, h3, c1, c2, c3, World.emit, Outcome.world, List.count_cons]

theorem mainServe_no_address_abort (S : Startup) (f : Flags) (w : World) :
    (mainServe S f w).1 ≠ .fatal "Input servers should not be same address" ∧
    (mainServe S f w).2.trace.count (.logFatal "Input servers should not be same address")
      = w.trace.count (.logFatal "Input servers should not be same address") := by
  have hp := prepFilters_trace S.MustCompile f w "Input servers should not be same address"
  unfold mainServe
  cases hpf : prepFilters S.MustCompile f w with
  | panicked w1 =>
    rw [hpf] at hp
    simpa [Outcome.world] using hp.1
  | returned w1 =>
    have hw1 := hp.2 w1 hpf
    cases hs : S.RegisterNode f.srcSrv with
    | none => simp [World.emit, List.count_cons, hw1]
    | some a =>
      cases hd : S.RegisterNodeWithCmd f.dstSrv with
      | none => simp [World.emit, List.count_cons, hw1]
      | some b => simp [World.emit, List.count_cons, hw1]

/-- C8. When the source and destination node-server addresses are equal
(the defaults are), `main` ends in the fatal diagnostic "Input servers should
not be same address" right after the banner line, with no node registration,
no pattern compilation and no dial in its trace.  When they differ, the check
does not abort: `main` continues with `prepFilters` and the rest of the
startup, and that diagnostic is never logged. -/
theorem main_rejects_equal_addresses (S : Startup) (f : Flags) :
    (f.srcSrv = f.dstSrv →
      (main S f).1 = .fatal "Input servers should not be same address" ∧
      (main S f).2.trace = (mainBanner S).trace ++
        [.logFatal "Input servers should not be same address"] ∧
      (main S f).2.trace.filter Action.isStartupWork = []) ∧
    (f.srcSrv ≠ f.dstSrv →
      main S f = mainServe S f (mainBanner S) ∧
      (main S f).1 ≠ .fatal "Input servers should not be same address" ∧
      (main S f).2.trace.count (.logFatal "Input servers should not be same address") = 0) := by
  constructor
  · intro h
    simp [main, h, World.emit, mainBanner, World.init, Action.isStartupWork]
  · intro h
    have hm : main S f = mainServe S f (mainBanner S) := by simp [main, h]
    obtain ⟨h1, h2⟩ := mainServe_no_address_abort S f (mainBanner S)
    refine ⟨hm, by rw [hm]; exact h1, ?_⟩
    rw [hm, h2]
    simp [mainBanner, World.emit, World.init, List.count_cons]

/-- Witness of C8: the default flags, and the default flags with the
destination moved to port 9991. -/
theorem main_rejects_equal_addresses_witness :
    ((main sampleStartup { }).1 = .fatal "Input servers should not be same address" ∧
      (main sampleStartup { }).2.trace = (mainBanner sampleStartup).trace ++
        [.logFatal "Input servers should not be same address"] ∧
      (main sampleStartup { }).2.trace.filter Action.isStartupWork = []) ∧
    (main sampleStartup { dstSrv := "127.0.0.1:9991" }
        = mainServe sampleStartup { dstSrv := "127.0.0.1:9991" } (mainBanner sampleStartup) ∧
      (main sampleStartup { dstSrv := "127.0.0.1:9991" }).1
        ≠ .fatal "Input servers should not be same address" ∧
      (main sampleStartup { dstSrv := "127.0.0.1:9991" }).2.trace.count
        (.logFatal "Input servers should not be same address") = 0) :=
  ⟨(main_rejects_equal_addresses sampleStartup { }).1 rfl,
    (main_rejects_equal_addresses sampleStartup { dstSrv := "127.0.0.1:9991" }).2 (by decide)⟩


/-! ## Status reporters -/

theorem toInt32_of_range (x : Int) (hlo : -2 ^ 31 ≤ x) (hhi : x < 2 ^ 31) : toInt32 x = x := by
  unfold toInt32
  norm_num at hlo hhi ⊢
  omega

/-- C9 (counterexample). With the counter at `2 ^ 31`, a tick of either
reporter publishes the numeric status `-2 ^ 31`, which is not the counter
value; and while the counter rises from `2 ^ 31 - 1` to `2 ^ 31` the reported
numeric status falls. -/
theorem status_wraps_at_int32 :
    (monitorStatusTick { World.init with msgCount := 2 ^ 31 }).trace =
      [.setNodeStatus .src (-2 ^ 31) "recv:2147483648", .sleep 3] ∧
    (monitorStatusDstTick { World.init with msgCount := 2 ^ 31 }).trace =
      [.setNodeStatus .dst (-2 ^ 31) "sent:2147483648", .sleep 3] ∧
    (2 ^ 31 - 1 : Int) ≤ 2 ^ 31 ∧ toInt32 (2 ^ 31) < toInt32 (2 ^ 31 - 1) := by
  refine ⟨by decide, by decide, by decide, by decide⟩

/-- C9 (amended). For every counter value `c`, one tick of either reporter
publishes `int32(c)` as the numeric status and `c` in decimal in the status
text, then sleeps 3 seconds, and leaves the counter unchanged.  `int32(c)` is
`c` when `c` lies in the `int32` range, so between two counter values in that
range the reported numeric status is non-decreasing whenever the counter
is. -/
theorem status_tick_reports_counter (w : World) :
    (monitorStatusTick w).trace = w.trace ++
      [.setNodeStatus .src (toInt32 w.msgCount) ("recv:" ++ fmtInt w.msgCount), .sleep 3] ∧
    (monitorStatusTick w).msgCount = w.msgCount ∧
    (monitorStatusDstTick w).trace = w.trace ++
      [.setNodeStatus .dst (toInt32 w.msgCount) ("sent:" ++ fmtInt w.msgCount), .sleep 3] ∧
    (monitorStatusDstTick w).msgCount = w.msgCount ∧
    (-2 ^ 31 ≤ w.msgCount → w.msgCount < 2 ^ 31 → toInt32 w.msgCount = w.msgCount) ∧
    (∀ w2 : World, -2 ^ 31 ≤ w.msgCount → w.msgCount ≤ w2.msgCount → w2.msgCount < 2 ^ 31 →
      toInt32 w.msgCount ≤ toInt32 w2.msgCount) := by
  refine ⟨by simp [monitorStatusTick, World.emit], by simp [monitorStatusTick, World.emit],
    by simp [monitorStatusDstTick, World.emit], by simp [monitorStatusDstTick, World.emit],
    toInt32_of_range _, ?_⟩
  intro w2 hlo hle hhi
  rw [toInt32_of_range _ hlo (by omega), toInt32_of_range _ (by omega) hhi]
  exact hle

/-- Witness of C9 (amended): the counter at 41, then at 42. -/
theorem status_tick_reports_counter_witness :
    toInt32 ({ World.init with msgCount := 41 } : World).msgCount
      = ({ World.init with msgCount := 41 } : World).msgCount ∧
    toInt32 ({ World.init with msgCount := 41 } : World).msgCount
      ≤ toInt32 ({ World.init with msgCount := 42 } : World).msgCount :=
  ⟨(status_tick_reports_counter { World.init with msgCount := 41 }).2.2.2.2.1
      (by decide) (by decide),
    (status_tick_reports_counter { World.init with msgCount := 41 }).2.2.2.2.2
      { World.init with msgCount := 42 } (by decide) (by decide) (by decide)⟩

/-! ## Concurrent calls of `reconnectClient` -/

theorem Race.step_reset (s : Race) (i : Nat) :
    (s.step (.reset i)).world.client.Client = none ∧
    (s.step (.reset i)).installs = s.installs ∧
    (s.owner = none →
      (s.step (.reset i)).owner = none ∧ (s.step (.reset i)).clobbers = s.clobbers) := by
  have h := (reconnectAsleep_spec s.world).1
  refine ⟨by simp [Race.step, Race.observe, World.emit, h],
    by simp [Race.step, Race.observe, World.emit, h], ?_⟩
  intro ho
  cases hb : s.world.client.Client <;>
    simp [Race.step, Race.observe, World.emit, h, ho, hb]

theorem Race.step_retry_live (s : Race) (i : Nat) (d : Option Conn) (c : Conn)
    (hl : s.world.client.Client = some c) :
    (s.step (.retry i d)).world.client.Client = some c ∧
    (s.step (.retry i d)).installs = s.installs ∧
    (s.step (.retry i d)).clobbers = s.clobbers := by
  have h := (reconnectRetry_spec d s.world).1
  rw [hl] at h
  simp [Race.step, Race.observe, h, hl]

theorem Race.step_retry_nil (s : Race) (i : Nat) (d : Option Conn)
    (hl : s.world.client.Client = none) :
    (s.step (.retry i d)).world.client.Client = d ∧
    (s.step (.retry i d)).installs = s.installs + (if d.isSome then 1 else 0) ∧
    (s.step (.retry i d)).clobbers = s.clobbers := by
  have h := (reconnectRetry_spec d s.world).1
  rw [hl] at h
  cases d <;> simp_all [Race.step, Race.observe]

theorem Race.run_resets :
    ∀ (l : List Step) (s : Race), (∀ st ∈ l, st.isReset = true) → s.owner = none →
      (s.run l).owner = none ∧ (s.run l).installs = s.installs ∧
      (s.run l).clobbers = s.clobbers ∧
      (s.world.client.Client = none ∨ l ≠ [] → (s.run l).world.client.Client = none) := by
  intro l
  induction l with
  | nil => intro s _ ho; simp [Race.run, ho]
  | cons st rest ih =>
    intro s hall ho
    have hst := hall st (List.mem_cons_self _ _)
    cases st with
    | retry i d => simp [Step.isReset] at hst
    | reset i =>
      obtain ⟨h1, h2, h3⟩ := Race.step_reset s i
      obtain ⟨h4, h5⟩ := h3 ho
      obtain ⟨r1, r2, r3, r4⟩ := ih (s.step (.reset i))
        (fun x hx => hall x (List.mem_cons_of_mem _ hx)) h4
      have hrun : s.run (Step.reset i :: rest) = (s.step (.reset i)).run rest := by
        simp [Race.run]
      rw [hrun]
      exact ⟨r1, r2.trans h2, r3.trans h5, fun _ => r4 (Or.inl h1)⟩

theorem Race.run_retries :
    ∀ (l : List Step) (s : Race), (∀ st ∈ l, st.isReset = false) →
      (s.run l).clobbers = s.clobbers ∧
      (s.world.client.Client = none →
        (s.run l).installs = s.installs + (if l.any Step.dialOk then 1 else 0)) ∧
      (s.world.client.Client ≠ none → (s.run l).installs = s.installs) := by
  intro l
  induction l with
  | nil => intro s _; simp [Race.run]
  | cons st rest ih =>
    intro s hall
    have hst := hall st (List.mem_cons_self _ _)
    have hrest : ∀ x ∈ rest, x.isReset = false := fun x hx => hall x (List.mem_cons_of_mem _ hx)
    cases st with
    | reset i => simp [Step.isReset] at hst
    | retry i d =>
      have hrun : s.run (Step.retry i d :: rest) = (s.step (.retry i d)).run rest := by
        simp [Race.run]
      obtain ⟨r1, r2, r3⟩ := ih (s.step (.retry i d)) hrest
      rw [hrun]
      cases hcl : s.world.client.Client with
      | some c =>
        obtain ⟨h1, h2, h3⟩ := Race.step_retry_live s i d c hcl
        refine ⟨r1.trans h3, fun h => Option.noConfusion h, fun _ => ?_⟩
        rw [r3 (by rw [h1]; simp), h2]
      | none =>
        obtain ⟨h1, h2, h3⟩ := Race.step_retry_nil s i d hcl
        refine ⟨r1.trans h3, fun _ => ?_, fun h => absurd rfl h⟩
        cases d with
        | none =>
          rw [r2 h1, h2]
          simp [Step.dialOk]
        | some c =>
          rw [r3 (by rw [h1]; simp), h2]
          simp [Step.dialOk]

theorem interleaving_has_reset (n : Nat) (sched : List Step) (hn : 1 ≤ n)
    (hint : interleaving n sched = true) : ∃ st ∈ sched, st.isReset = true := by
  simp only [interleaving, Bool.and_eq_true, List.all_eq_true, List.mem_range,
    decide_eq_true_eq] at hint
  have h0 := hint.2 0 (by omega)
  cases hf : sched.filter (fun st => decide (st.call = 0)) with
  | nil => rw [hf] at h0; simp at h0
  | cons a rest =>
    rw [hf] at h0
    have ha : a ∈ sched.filter (fun st => decide (st.call = 0)) := by
      rw [hf]; exact List.mem_cons_self _ _
    refine ⟨a, (List.mem_filter.mp ha).1, ?_⟩
    simp only [List.map_cons, List.cons.injEq] at h0
    exact h0.1

/-- C10 (counterexample). In the interleaving of two calls where the second
call runs its first critical section after the first call has installed its
connection, that section sets the installed handle to nil and two dials end
up installing a handle.  In the interleaving where both dials fail, no
handle is installed. -/
theorem late_reset_removes_installed_handle :
    interleaving 2 lateSecondCall = true ∧
    ((Race.start liveWorld).run lateSecondCall).installs = 2 ∧
    ((Race.start liveWorld).run lateSecondCall).clobbers = 1 ∧
    interleaving 2 bothDialsFail = true ∧
    ((Race.start liveWorld).run bothDialsFail).installs = 0 := by
  refine ⟨by decide, by decide, by decide, by decide, by decide⟩

/-- C10 (amended). For every interleaving of two or more calls of
`reconnectClient` on the same handle in which every first critical section
runs before every second one (all calls sleep at the same time), at most one
dial installs a handle, exactly one does if and only if the dial of some call
would succeed, and no step sets to nil or replaces a live handle that another
call has installed. -/
theorem resets_first_single_install (n : Nat) (sched : List Step) (w : World)
    (hn : 2 ≤ n) (hint : interleaving n sched = true) (hrf : resetsFirst sched = true) :
    ((Race.start w).run sched).installs ≤ 1 ∧
    (((Race.start w).run sched).installs = 1 ↔ ∃ st ∈ sched, st.dialOk = true) ∧
    ((Race.start w).run sched).clobbers = 0 := by
  have hsplit := List.takeWhile_append_dropWhile Step.isReset sched
  have hA : ∀ st ∈ sched.takeWhile Step.isReset, st.isReset = true :=
    fun st hst => List.mem_takeWhile_imp hst
  have hB : ∀ st ∈ sched.dropWhile Step.isReset, st.isReset = false := by
    intro st hst
    have := (List.all_eq_true.mp hrf) st hst
    simpa using this
  have hne : sched.takeWhile Step.isReset ≠ [] := by
    obtain ⟨st, hst, hr⟩ := interleaving_has_reset n sched (by omega) hint
    intro hnil
    rw [← hsplit, hnil, List.nil_append] at hst
    rw [hB st hst] at hr
    cases hr
  obtain ⟨a1, a2, a3, a4⟩ := Race.run_resets (sched.takeWhile Step.isReset) (Race.start w) hA rfl
  obtain ⟨b1, b2, _⟩ := Race.run_retries (sched.dropWhile Step.isReset)
    ((Race.start w).run (sched.takeWhile Step.isReset)) hB
  have hrun : (Race.start w).run sched =
      ((Race.start w).run (sched.takeWhile Step.isReset)).run
        (sched.dropWhile Step.isReset) := by
    have happ : (Race.start w).run
        (sched.takeWhile Step.isReset ++ sched.dropWhile Step.isReset) =
        ((Race.start w).run (sched.takeWhile Step.isReset)).run
          (sched.dropWhile Step.isReset) := by
      unfold Race.run
      rw [List.foldl_append]
    rw [hsplit] at happ
    exact happ
  have hany : (∃ st ∈ sched, st.dialOk = true) ↔
      (sched.dropWhile Step.isReset).any Step.dialOk = true := by
    rw [List.any_eq_true]
    constructor
    · rintro ⟨st, hst, hd⟩
      rw [← hsplit] at hst
      rcases List.mem_append.mp hst with h | h
      · have := hA st h
        cases st <;> simp_all [Step.isReset, Step.dialOk]
      · exact ⟨st, h, hd⟩
    · rintro ⟨st, hst, hd⟩
      exact ⟨st, by rw [← hsplit]; exact List.mem_append_right _ hst, hd⟩
  have hinst := b2 (a4 (Or.inr hne))
  rw [a2] at hinst
  rw [hrun, hany, hinst, b1, a3]
  simp only [Race.start]
  by_cases hd : (sched.dropWhile Step.isReset).any Step.dialOk = true <;> simp [hd]

/-- Witness of C10 (amended): two calls asleep together, the first dial
failing and the second succeeding. -/
theorem resets_first_single_install_witness :
    ((Race.start liveWorld).run
      [.reset 0, .reset 1, .retry 1 none, .retry 0 (some 7)]).installs ≤ 1 ∧
    (((Race.start liveWorld).run
      [.reset 0, .reset 1, .retry 1 none, .retry 0 (some 7)]).installs = 1 ↔
      ∃ st ∈ [Step.reset 0, .reset 1, .retry 1 none, .retry 0 (some 7)], st.dialOk = true) ∧
    ((Race.start liveWorld).run
      [.reset 0, .reset 1, .retry 1 none, .retry 0 (some 7)]).clobbers = 0 :=
  resets_first_single_install 2 [.reset 0, .reset 1, .retry 1 none, .retry 0 (some 7)] liveWorld
    (by decide) (by decide) (by decide)

end PCounterForward
